import Mathlib

/-!
A shallow embedding of the sensorfw session multiplexer core:
src/sensord/sockethandler.cpp (SessionData, SocketHandler) and the
setStandbyOverride hook of src/sensord/nodebase.h (NodeBase).

Modelling conventions:
* struct timeval becomes Timeval (integer seconds and microseconds);
  gettimeofday is ambient nondeterminism, so every operation that reads the
  clock takes the current Timeval as an explicit argument, used both for the
  sinceLastWrite query and for stamping lastWrite within one call.
* QLocalSocket pointers are natural-number handles; a null pointer is none.
  The outcome of the underlying socket write (negative return on failure) is
  an external event, passed in as a Bool oracle sockOk, true when the return
  value was nonnegative.  The payload that physically reaches the transport
  during a call is reported in the sent field of the result.
* C long division by 1000 truncates toward zero, hence Int.tdiv.
* The QMap from int to SessionData pointers becomes an association list with
  unique keys; lookupS, updateS and takeS model find, in-place update through
  the iterator, and take/erase.
* Dereferencing the result of m_idMap.find when the key is absent dereferences
  the end iterator, which is undefined behavior; operations that can do this
  return Option, with none marking the invalid dereference.
* QTimer: timerArmed is whether the timer is running, that is whether
  timer.timerId() differs from -1; timerDueMs records the duration handed to
  the most recent start call.
-/

structure Timeval where
  sec : Int
  usec : Int
deriving DecidableEq

def LONG_MAX : Int := 2 ^ 63 - 1

def INT_MAX : Int := 2 ^ 31 - 1

structure SessionData where
  socket : Option Nat
  interval : Int
  lastWrite : Timeval
  buffer : Option (List Nat)
  size : Int
  timerArmed : Bool
  timerDueMs : Int
deriving DecidableEq

-- SessionData::SessionData: interval(-1), buffer(0), size(0), lastWrite
-- zeroed, timer not running.
def SessionData.mk0 (socket : Nat) : SessionData :=
  { socket := some socket, interval := -1, lastWrite := ⟨0, 0⟩,
    buffer := none, size := 0, timerArmed := false, timerDueMs := 0 }

-- long SessionData::sinceLastWrite() const
def SessionData.sinceLastWrite (sd : SessionData) (now : Timeval) : Int :=
  if sd.lastWrite.sec = 0 then LONG_MAX
  else (now.sec - sd.lastWrite.sec) * 1000 + (now.usec - sd.lastWrite.usec).tdiv 1000

structure WriteResult where
  ret : Bool
  st : SessionData
  sent : Option (List Nat)
deriving DecidableEq

-- bool SessionData::write(const void* source, int size)
def SessionData.write (sd : SessionData) (source : List Nat) (now : Timeval)
    (sockOk : Bool) : WriteResult :=
  if sd.interval = -1 then
    { ret := sockOk, st := { sd with lastWrite := now }, sent := some source }
  else
    let since := sd.sinceLastWrite now
    if since ≥ sd.interval then
      { ret := sockOk, st := { sd with lastWrite := now }, sent := some source }
    else
      -- allocate or reallocate the single pending buffer, then memcpy
      let sd1 := { sd with buffer := some source, size := (source.length : Int) }
      -- source test: if (timer.timerId() != -1) timer.start(interval - since);
      -- the timer is (re)started only when it is already running
      if sd1.timerArmed then
        { ret := true, st := { sd1 with timerDueMs := sd1.interval - since }, sent := none }
      else
        { ret := true, st := sd1, sent := none }

-- void SessionData::delayedWrite(): stop the timer, stamp lastWrite, write the
-- buffered payload; the transport return value is not inspected (void slot).
def SessionData.delayedWrite (sd : SessionData) (now : Timeval) (_sockOk : Bool) :
    SessionData × Option (List Nat) :=
  ({ sd with timerArmed := false, lastWrite := now }, sd.buffer)

-- QLocalSocket* SessionData::stealSocket(): return the handle, null the field.
def SessionData.stealSocket (sd : SessionData) : Option Nat × SessionData :=
  (sd.socket, { sd with socket := none })

-- void SessionData::setInterval(int interval)
def SessionData.setInterval (sd : SessionData) (value : Int) : SessionData :=
  { sd with interval := value }

def lookupS : List (Int × SessionData) → Int → Option SessionData
  | [], _ => none
  | (k, v) :: rest, id => if k = id then some v else lookupS rest id

def updateS : List (Int × SessionData) → Int → SessionData → List (Int × SessionData)
  | [], _, _ => []
  | (k, v) :: rest, id, nv => if k = id then (k, nv) :: rest else (k, v) :: updateS rest id nv

def takeS : List (Int × SessionData) → Int → List (Int × SessionData)
  | [], _ => []
  | (k, v) :: rest, id => if k = id then rest else (k, v) :: takeS rest id

structure SocketHandler where
  idMap : List (Int × SessionData)
  tmpSocks : List Nat
  listening : Bool
deriving DecidableEq

structure HandlerWriteResult where
  ret : Bool
  st : SocketHandler
  sent : Option (List Nat)
deriving DecidableEq

-- bool SocketHandler::write(int id, const void* source, int size)
def SocketHandler.write (h : SocketHandler) (id : Int) (source : List Nat)
    (now : Timeval) (sockOk : Bool) : HandlerWriteResult :=
  match lookupS h.idMap id with
  | none => { ret := false, st := h, sent := none }
  | some sd =>
    let r := sd.write source now sockOk
    { ret := r.ret, st := { h with idMap := updateS h.idMap id r.st }, sent := r.sent }

-- bool SocketHandler::removeSession(int sessionId): the missing-session check
-- only logs and control falls through to stealSocket on the dereferenced find
-- result, so an absent id dereferences the end iterator, modelled as none.
def SocketHandler.removeSession (h : SocketHandler) (sessionId : Int) :
    Option (Bool × SocketHandler) :=
  match lookupS h.idMap sessionId with
  | none => none
  | some sd =>
    let stolen := sd.stealSocket
    let h1 :=
      match stolen.1 with
      | some s => { h with tmpSocks := h.tmpSocks ++ [s] }  -- queued for deferred kill
      | none => h
    some (true, { h1 with idMap := takeS h1.idMap sessionId })

-- void SocketHandler::socketReadable(): interpret the first 4 bytes as the
-- session id; a negative id hits Q_ASSERT(false), modelled as none.
def SocketHandler.socketReadable (h : SocketHandler) (sessionId : Int) (socket : Nat) :
    Option SocketHandler :=
  if 0 ≤ sessionId then
    if (lookupS h.idMap sessionId).isSome then some h
    else some { h with idMap := (sessionId, SessionData.mk0 socket) :: h.idMap }
  else none

-- void SocketHandler::setInterval(int sessionId, int value)
def SocketHandler.setInterval (h : SocketHandler) (sessionId : Int) (value : Int) :
    SocketHandler :=
  match lookupS h.idMap sessionId with
  | none => h
  | some sd => { h with idMap := updateS h.idMap sessionId (sd.setInterval value) }

-- void SocketHandler::clearInterval(int sessionId): when the id is found the
-- code runs m_idMap.erase(it), removing the whole map entry.
def SocketHandler.clearInterval (h : SocketHandler) (sessionId : Int) : SocketHandler :=
  match lookupS h.idMap sessionId with
  | none => h
  | some _ => { h with idMap := takeS h.idMap sessionId }

structure ListenResult where
  ret : Bool
  unlinkCalls : Nat
  bindAttempts : Nat
deriving DecidableEq

-- the while loop of SocketHandler::listen; binds holds the successive
-- outcomes of the bind attempts made by the loop condition, slash is whether
-- the first character of serverName is the slash character.  Every condition
-- evaluation performs one bind attempt; the body performs one unlink call and
-- sets unlinkDone.  The returned Bool is the final isListening state.
def listenLoop : List Bool → Bool → Bool → Nat → Nat → Bool × Nat × Nat
  | [], _, _, unlinks, attempts => (false, unlinks, attempts)
  | b :: rest, unlinkDone, slash, unlinks, attempts =>
    if b then (true, unlinks, attempts + 1)
    else if unlinkDone then (false, unlinks, attempts + 1)
    else if slash then listenLoop rest true slash (unlinks + 1) (attempts + 1)
    else (false, unlinks, attempts + 1)

-- bool SocketHandler::listen(QString serverName)
def SocketHandler.listen (h : SocketHandler) (slash : Bool) (binds : List Bool) :
    ListenResult × SocketHandler :=
  if h.listening then ({ ret := false, unlinkCalls := 0, bindAttempts := 0 }, h)
  else
    let r := listenLoop binds false slash 0 0
    ({ ret := r.1, unlinkCalls := r.2.1, bindAttempts := r.2.2 },
     { h with listening := r.1 })

-- NodeBase from src/sensord/nodebase.h.  The DataRange-typed members come
-- from datarange.h, which is not among the supplied sources, and no claim
-- touches them, so only the remaining members are carried.
structure NodeBase where
  m_description : String
  m_standbySourceList : List Nat
  m_standbyRequestList : List Int
deriving DecidableEq

-- virtual bool NodeBase::setStandbyOverride(const bool override): the base
-- class hook ignores its argument, touches no member, and returns false.
def NodeBase.setStandbyOverride (node : NodeBase) (_b : Bool) : Bool × NodeBase :=
  (false, node)

-- concrete states used by witnesses, counterexamples and failing inputs

def shEmpty : SocketHandler := { idMap := [], tmpSocks := [], listening := false }

def shOne : SocketHandler :=
  { idMap := [(1, SessionData.mk0 3)], tmpSocks := [], listening := false }

def sdUnlimited : SessionData := SessionData.mk0 3

def sdFresh100 : SessionData := { SessionData.mk0 3 with interval := 100 }

def sdRecent : SessionData :=
  { socket := some 3, interval := 200, lastWrite := ⟨100, 0⟩,
    buffer := none, size := 0, timerArmed := false, timerDueMs := 0 }

def sdRecentArmed : SessionData := { sdRecent with timerArmed := true, timerDueMs := 999 }

/-- Helper shared by several claims: whenever the interval is unset (-1) or the
elapsed time is at least the interval, SessionData.write takes the immediate
pass-through path: the payload goes to the transport at once, lastWrite is
stamped with now, every other field is untouched, and the transport outcome is
returned. -/
theorem SessionData.write_eq_passthrough (sd : SessionData) (source : List Nat)
    (now : Timeval) (sockOk : Bool)
    (hp : sd.interval = -1 ∨ sd.sinceLastWrite now ≥ sd.interval) :
    sd.write source now sockOk =
      { ret := sockOk, st := { sd with lastWrite := now }, sent := some source } := by
  unfold SessionData.write
  rcases hp with hp | hp
  · simp [hp]
  · rcases eq_or_ne sd.interval (-1) with h1 | h1
    · simp [h1]
    · simp [h1, hp]

/-- Claim C1 (code_bug evidence): with interval 200, last write at second 100,
and a new write 50 ms later (elapsed 50 < 200), the deferred branch copies the
payload into the pending buffer and returns true, but because the source tests
timer.timerId() != -1 before calling timer.start, no timer is armed when none
is running (the state keeps timerArmed = false), so the buffered payload is
never scheduled; and when a timer IS already armed the code restarts it with
the new duration 150 ms instead of doing nothing. -/
theorem C1_timer_never_armed :
    sdRecent.sinceLastWrite ⟨100, 50000⟩ = 50 ∧
    sdRecent.write [7] ⟨100, 50000⟩ true =
      { ret := true, st := { sdRecent with buffer := some [7], size := 1 }, sent := none } ∧
    (sdRecent.write [7] ⟨100, 50000⟩ true).st.timerArmed = false ∧
    sdRecentArmed.write [7] ⟨100, 50000⟩ true =
      { ret := true,
        st := { sdRecentArmed with buffer := some [7], size := 1, timerDueMs := 150 },
        sent := none } := by decide

/-- Claim C2 (code_bug evidence): removeSession on an unregistered id (empty
handler, or a second call after a successful removal) reaches the dereference
of the end iterator, modelled as none, instead of the safe logging no-op the
claim requires; the middle conjunct shows the one well-defined path, where the
session exists, steals the handle into the deferred-kill list and removes the
entry. -/
theorem C2_remove_unknown_invalid_deref :
    SocketHandler.removeSession shEmpty 1 = none ∧
    SocketHandler.removeSession shOne 1 =
      some (true, { idMap := [], tmpSocks := [3], listening := false }) ∧
    SocketHandler.removeSession { idMap := [], tmpSocks := [3], listening := false } 1 =
      none := by decide

/-- Claim C3 (code_bug evidence): on a handler with session 1 registered,
clearInterval 1 erases the whole map entry, so the session-to-channel mapping
does not survive and a subsequent write to session 1 returns false instead of
routing to the channel; only the unknown-id no-op part of the claim holds. -/
theorem C3_clearInterval_erases_session :
    (SocketHandler.clearInterval shOne 1).idMap = [] ∧
    lookupS (SocketHandler.clearInterval shOne 1).idMap 1 = none ∧
    (SocketHandler.write (SocketHandler.clearInterval shOne 1) 1 [7] ⟨5, 0⟩ true).ret
      = false ∧
    SocketHandler.clearInterval shEmpty 1 = shEmpty := by decide

/-- Claim C4: whenever interval is -1 or the elapsed time since the last
completed write is at least the interval, SessionData.write writes the payload
to the transport immediately, stamps lastWrite with now, leaves every other
field unchanged, and returns the transport outcome as its result. -/
theorem C4_immediate_write (sd : SessionData) (source : List Nat) (now : Timeval)
    (sockOk : Bool)
    (hp : sd.interval = -1 ∨ sd.sinceLastWrite now ≥ sd.interval) :
    sd.write source now sockOk =
      { ret := sockOk, st := { sd with lastWrite := now }, sent := some source } :=
  SessionData.write_eq_passthrough sd source now sockOk hp

/-- Witness for claim C4 at a concrete input: a fresh unlimited-interval
session writes the payload immediately. -/
theorem C4_immediate_write_witness :
    sdUnlimited.write [1, 2] ⟨5, 0⟩ true =
      { ret := true, st := { sdUnlimited with lastWrite := ⟨5, 0⟩ }, sent := some [1, 2] } :=
  C4_immediate_write sdUnlimited [1, 2] ⟨5, 0⟩ true (Or.inl rfl)

/-- Claim C5 counterexample: the claim says write returns false if and only if
no channel is registered, but on a handler with session 1 registered and a
failing transport the call returns false even though the lookup succeeds. -/
theorem C5_false_despite_registered :
    (SocketHandler.write shOne 1 [9] ⟨5, 0⟩ false).ret = false ∧
    (lookupS shOne.idMap 1).isSome = true := by decide

/-- Claim C5 amended: write returns false and leaves the whole handler state
untouched when no channel is registered for the id; when a channel is
registered it returns exactly that channel write result (which can itself be
false on transport failure) and stores the updated channel state. -/
theorem C5_amended_routing (h : SocketHandler) (id : Int) (source : List Nat)
    (now : Timeval) (sockOk : Bool) :
    (lookupS h.idMap id = none →
       SocketHandler.write h id source now sockOk =
         { ret := false, st := h, sent := none }) ∧
    (∀ sd, lookupS h.idMap id = some sd →
       SocketHandler.write h id source now sockOk =
         { ret := (sd.write source now sockOk).ret,
           st := { h with idMap := updateS h.idMap id (sd.write source now sockOk).st },
           sent := (sd.write source now sockOk).sent }) := by
  constructor
  · intro hn
    simp [SocketHandler.write, hn]
  · intro sd hs
    simp [SocketHandler.write, hs]

/-- Witness for claim C5 amended at a concrete input: writing to an empty
handler returns false and changes nothing. -/
theorem C5_amended_routing_witness :
    SocketHandler.write shEmpty 1 [9] ⟨5, 0⟩ true =
      { ret := false, st := shEmpty, sent := none } :=
  (C5_amended_routing shEmpty 1 [9] ⟨5, 0⟩ true).1 (by decide)

/-- Claim C6: in the handshake, a non-negative previously-unseen identifier
creates exactly one new channel bound to that identifier (the map gains the
single binding to a freshly constructed SessionData holding the socket), while
a duplicate identifier leaves the session map unchanged, keeping the first
registered channel. -/
theorem C6_handshake_idempotent (h : SocketHandler) (id : Int) (sock : Nat)
    (hid : 0 ≤ id) :
    ((lookupS h.idMap id).isSome = false →
       SocketHandler.socketReadable h id sock =
         some { h with idMap := (id, SessionData.mk0 sock) :: h.idMap }) ∧
    ((lookupS h.idMap id).isSome = true →
       SocketHandler.socketReadable h id sock = some h) := by
  constructor <;> intro hc <;> simp [SocketHandler.socketReadable, hid, hc]

/-- Witness for claim C6 at concrete inputs: registering id 7 on an empty
handler adds the single binding; a second handshake with id 7 from another
socket leaves the map unchanged, keeping the first channel with socket 4. -/
theorem C6_handshake_idempotent_witness :
    SocketHandler.socketReadable shEmpty 7 4 =
      some { shEmpty with idMap := (7, SessionData.mk0 4) :: shEmpty.idMap } ∧
    SocketHandler.socketReadable
        { shEmpty with idMap := (7, SessionData.mk0 4) :: shEmpty.idMap } 7 9 =
      some { shEmpty with idMap := (7, SessionData.mk0 4) :: shEmpty.idMap } :=
  ⟨(C6_handshake_idempotent shEmpty 7 4 (by decide)).1 (by decide),
   (C6_handshake_idempotent
      { shEmpty with idMap := (7, SessionData.mk0 4) :: shEmpty.idMap } 7 9
      (by decide)).2 (by decide)⟩

/-- Claim C7: listen on an already-listening handler fails with no unlink call
and no bind attempt; otherwise a first successful bind finishes after one
attempt; a failed bind with a slash-prefixed name unlinks exactly once and
retries the bind exactly once, the result being the outcome of the retry; a
failed bind with a non-path name makes no unlink call and fails after the
single attempt. -/
theorem C7_listen_behavior (h : SocketHandler) (slash b1 b2 : Bool) :
    (h.listening = true →
       SocketHandler.listen h slash [b1, b2] =
         ({ ret := false, unlinkCalls := 0, bindAttempts := 0 }, h)) ∧
    (h.listening = false →
       SocketHandler.listen h slash [b1, b2] =
         (if b1 then
            ({ ret := true, unlinkCalls := 0, bindAttempts := 1 },
             { h with listening := true })
          else if slash then
            ({ ret := b2, unlinkCalls := 1, bindAttempts := 2 },
             { h with listening := b2 })
          else
            ({ ret := false, unlinkCalls := 0, bindAttempts := 1 },
             { h with listening := false }))) := by
  constructor <;> intro hl
  · simp [SocketHandler.listen, hl]
  · cases b1 <;> cases slash <;> cases b2 <;>
      simp [SocketHandler.listen, listenLoop, hl]

/-- Witness for claim C7 at a concrete input: a non-listening handler whose
first bind fails on a slash-prefixed name unlinks once, retries once, and the
successful retry leaves it listening. -/
theorem C7_listen_behavior_witness :
    SocketHandler.listen shEmpty true [false, true] =
      ({ ret := true, unlinkCalls := 1, bindAttempts := 2 },
       { shEmpty with listening := true }) := by
  have h := (C7_listen_behavior shEmpty true false true).2 rfl
  simpa using h

/-- Claim C8: the base-class setStandbyOverride hook of NodeBase returns false
for every input and leaves the node state untouched. -/
theorem C8_setStandbyOverride_false (node : NodeBase) (b : Bool) :
    node.setStandbyOverride b = (false, node) := rfl

/-- Claim C9: on a channel whose lastWrite timestamp is still zero (no write
has completed yet), sinceLastWrite reports LONG_MAX, so a write takes the
immediate pass-through path for every positive interval within the int range:
the payload is sent at once, lastWrite is stamped, and the transport outcome
is returned. -/
theorem C9_first_write_passthrough (sd : SessionData) (source : List Nat)
    (now : Timeval) (sockOk : Bool)
    (hfresh : sd.lastWrite.sec = 0) (_hpos : 0 < sd.interval)
    (hrange : sd.interval ≤ INT_MAX) :
    sd.sinceLastWrite now = LONG_MAX ∧
    sd.write source now sockOk =
      { ret := sockOk, st := { sd with lastWrite := now }, sent := some source } := by
  have hsince : sd.sinceLastWrite now = LONG_MAX := by
    unfold SessionData.sinceLastWrite
    simp [hfresh]
  refine ⟨hsince, SessionData.write_eq_passthrough sd source now sockOk (Or.inr ?_)⟩
  rw [hsince]
  exact le_trans hrange (by decide)

/-- Witness for claim C9 at a concrete input: a fresh channel with interval
100 and zero lastWrite passes the very first write straight through. -/
theorem C9_first_write_passthrough_witness :
    sdFresh100.sinceLastWrite ⟨5, 0⟩ = LONG_MAX ∧
    sdFresh100.write [4] ⟨5, 0⟩ true =
      { ret := true, st := { sdFresh100 with lastWrite := ⟨5, 0⟩ }, sent := some [4] } :=
  C9_first_write_passthrough sdFresh100 [4] ⟨5, 0⟩ true rfl (by decide) (by decide)

/-- Claim C10: whenever SessionData.write takes the deferred branch (interval
not -1 and elapsed below interval) it returns true unconditionally and sends
nothing, and the eventual delayed write never surfaces the transport outcome:
delayedWrite yields the same state and payload whatever that outcome is, and
returns no boolean at all. -/
theorem C10_deferred_result_discarded (sd : SessionData) (source : List Nat)
    (now fireTime : Timeval) (ok1 ok2 : Bool)
    (hne : sd.interval ≠ -1) (hlt : sd.sinceLastWrite now < sd.interval) :
    (sd.write source now ok1).ret = true ∧
    (sd.write source now ok1).sent = none ∧
    sd.delayedWrite fireTime ok1 = sd.delayedWrite fireTime ok2 := by
  have hnge : ¬ sd.sinceLastWrite now ≥ sd.interval := not_le.mpr hlt
  refine ⟨?_, ?_, rfl⟩ <;>
    · unfold SessionData.write
      simp [hne, hnge]
      by_cases ht : sd.timerArmed <;> simp [ht]

/-- Witness for claim C10 at a concrete input: a deferred write with a failing
transport still reports true and sends nothing, and the delayed write state is
independent of the transport outcome. -/
theorem C10_deferred_result_discarded_witness :
    (sdRecent.write [7] ⟨100, 50000⟩ false).ret = true ∧
    (sdRecent.write [7] ⟨100, 50000⟩ false).sent = none ∧
    sdRecent.delayedWrite ⟨101, 0⟩ false = sdRecent.delayedWrite ⟨101, 0⟩ true :=
  C10_deferred_result_discarded sdRecent [7] ⟨100, 50000⟩ ⟨101, 0⟩ false true
    (by decide) (by decide)
